import Mathlib

/-!
Verification of the feature-drift filter hook
(`use-get-filtered-features.js`) of the radicalbit-ai-monitoring UI.

The hook receives the polled drift dataset (possibly absent, with a
possibly absent `drift.featureMetrics` sequence) and the form filter
state (two type-class toggles plus an optional feature-name allow-list)
and returns the filtered, ordered sequence of per-feature drift metrics.
-/

/-- A drift calculation attached to a feature metric; the source only
reads its `type` field (the statistical test kind, a string). -/
structure DriftCalc where
  type : String
deriving DecidableEq, Repr

/-- One per-feature drift entry, as destructured by the source:
`{ featureName, driftCalc: { type } }`. -/
structure DriftMetric where
  featureName : String
  driftCalc : DriftCalc
deriving DecidableEq, Repr

/-- The `drift` object of the polled payload; `featureMetrics` may be
absent (`data?.drift?.featureMetrics`). -/
structure Drift where
  featureMetrics : Option (List DriftMetric)
deriving DecidableEq, Repr

/-- The polled payload `data`; its `drift` field may be absent. -/
structure DriftData where
  drift : Option Drift
deriving DecidableEq, Repr

/-- The formbit `__metadata` filter state read by the hook:
`isNumericalSelected`, `isCategoricalSelected`, `selectedFeatures`
(the allow-list may be absent, matching `selectedFeatures?.length`). -/
structure FilterState where
  isNumericalSelected : Bool
  isCategoricalSelected : Bool
  selectedFeatures : Option (List String)
deriving DecidableEq, Repr

/-- Modelled from the spec: the constants module (`@Src/constants`)
defining `DRIFT_TEST_ENUM` is not among the provided sources. Per the
spec's glossary and scenarios, the numerical test kind is `KS` and the
categorical test kind is `CHI2`, two distinct members of a fixed
enumeration of test kinds. -/
structure DriftTestEnum where
  KS : String
  CHI2 : String
deriving DecidableEq, Repr

/-- Modelled from the spec: concrete values of the two test kinds, taken
from the spec's scenario section (`KS` = numerical, `CHI2` = categorical). -/
def DRIFT_TEST_ENUM : DriftTestEnum :=
  { KS := "KS", CHI2 := "CHI2" }

/-- Source expression `isNumericalSelected && type === DRIFT_TEST_ENUM.KS`,
shared verbatim by both filtering branches. -/
def isNumericalOf (fs : FilterState) (m : DriftMetric) : Bool :=
  fs.isNumericalSelected && (m.driftCalc.type == DRIFT_TEST_ENUM.KS)

/-- Source expression `isCategoricalSelected && type === DRIFT_TEST_ENUM.CHI2`,
shared verbatim by both filtering branches. -/
def isCategoricalOf (fs : FilterState) (m : DriftMetric) : Bool :=
  fs.isCategoricalSelected && (m.driftCalc.type == DRIFT_TEST_ENUM.CHI2)

/-- The type-filter predicate `isNumerical || isCategorical` of the source. -/
def typePass (fs : FilterState) (m : DriftMetric) : Bool :=
  isNumericalOf fs m || isCategoricalOf fs m

/-- Source expression `data?.drift?.featureMetrics ?? []`: the working
sequence of metrics. -/
def itemsOf (dataset : Option DriftData) : List DriftMetric :=
  ((dataset.bind DriftData.drift).bind Drift.featureMetrics).getD []

/-- The no-name-filter branch of the source, kept together with its
diagnostic channel: for each metric it emits
`console.debug(type, isNumerical, isCategorical)` (modelled as an
accumulated list of observations, the second component) and keeps the
metric iff `isNumerical || isCategorical` (the first component). -/
def typeFilterObserved (fs : FilterState) :
    List DriftMetric → List DriftMetric × List (String × Bool × Bool)
  | [] => ([], [])
  | m :: rest =>
    let isNumerical := isNumericalOf fs m
    let isCategorical := isCategoricalOf fs m
    let debugLine := (m.driftCalc.type, isNumerical, isCategorical)
    let res := typeFilterObserved fs rest
    (if isNumerical || isCategorical then m :: res.1 else res.1,
      debugLine :: res.2)

/-- The hook itself. Mirrors the source control flow: early return `[]`
when `data` is absent; early return `[]` when neither toggle is set;
otherwise the name-and-type filter when `selectedFeatures?.length > 0`,
and the (diagnostic-emitting) pure type filter otherwise. -/
def useGetFilteredFeatures (dataset : Option DriftData) (fs : FilterState) :
    List DriftMetric :=
  let items := itemsOf dataset
  match dataset with
  | none => []
  | some _ =>
    if !fs.isNumericalSelected && !fs.isCategoricalSelected then
      []
    else
      match fs.selectedFeatures with
      | some selectedFeatures =>
        if selectedFeatures.length > 0 then
          items.filter fun m =>
            let isSelected := selectedFeatures.contains m.featureName
            isSelected && (isNumericalOf fs m || isCategoricalOf fs m)
        else
          (typeFilterObserved fs items).1
      | none => (typeFilterObserved fs items).1

/-- Spec-side variant of the hook with the diagnostic channel removed:
the no-name-filter branch is the plain `List.filter` of the type-filter
predicate. Used to state the refinement claim that the diagnostics do
not influence the returned sequence. -/
def useGetFilteredFeaturesNoDebug (dataset : Option DriftData)
    (fs : FilterState) : List DriftMetric :=
  let items := itemsOf dataset
  match dataset with
  | none => []
  | some _ =>
    if !fs.isNumericalSelected && !fs.isCategoricalSelected then
      []
    else
      match fs.selectedFeatures with
      | some selectedFeatures =>
        if selectedFeatures.length > 0 then
          items.filter fun m =>
            let isSelected := selectedFeatures.contains m.featureName
            isSelected && (isNumericalOf fs m || isCategoricalOf fs m)
        else
          items.filter (typePass fs)
      | none => items.filter (typePass fs)

/-- Sample metric of the numerical (`KS`) test kind. -/
def sampleKS : DriftMetric := ⟨"age", ⟨"KS"⟩⟩

/-- Sample metric of the categorical (`CHI2`) test kind. -/
def sampleCHI2 : DriftMetric := ⟨"city", ⟨"CHI2"⟩⟩

/-- Sample metric of an unknown test kind. -/
def sampleOther : DriftMetric := ⟨"zip", ⟨"PSI"⟩⟩

/-- Sample present dataset holding one metric of each kind. -/
def sampleData : DriftData := ⟨some ⟨some [sampleKS, sampleCHI2, sampleOther]⟩⟩

/-- The result component of the observed type-filter branch agrees with the
plain `List.filter` of the type-filter predicate. -/
theorem typeFilterObserved_fst (fs : FilterState) (items : List DriftMetric) :
    (typeFilterObserved fs items).1 = items.filter (typePass fs) := by
  induction items with
  | nil => rfl
  | cons m rest ih =>
    simp only [typeFilterObserved, List.filter_cons, typePass, ih]

/-- The type-class guard of the source is false as soon as one toggle is on. -/
theorem guard_false_of_toggle (fs : FilterState)
    (htog : fs.isNumericalSelected = true ∨ fs.isCategoricalSelected = true) :
    (!fs.isNumericalSelected && !fs.isCategoricalSelected) = false := by
  rcases htog with h | h <;> simp [h]

/-- When the working sequence is empty, every branch of the hook returns
the empty sequence. -/
theorem filtered_nil_of_items_nil (dataset : Option DriftData)
    (fs : FilterState) (h : itemsOf dataset = []) :
    useGetFilteredFeatures dataset fs = [] := by
  cases dataset with
  | none => rfl
  | some d =>
    simp only [useGetFilteredFeatures, h]
    split
    · rfl
    · cases fs.selectedFeatures with
      | none => rfl
      | some sel =>
        by_cases hlen : sel.length > 0 <;> simp [hlen, typeFilterObserved]

/-- Every element of the hook output comes from the working sequence and
satisfies the type-filter predicate. -/
theorem mem_filtered (dataset : Option DriftData) (fs : FilterState)
    (m : DriftMetric) (hm : m ∈ useGetFilteredFeatures dataset fs) :
    m ∈ itemsOf dataset ∧ typePass fs m = true := by
  cases dataset with
  | none => exact absurd hm (by simp [useGetFilteredFeatures])
  | some d =>
    simp only [useGetFilteredFeatures] at hm
    split at hm
    · exact absurd hm (List.not_mem_nil m)
    · split at hm
      · split at hm
        · rw [List.mem_filter] at hm
          refine ⟨hm.1, ?_⟩
          have h2 := hm.2
          simp only [Bool.and_eq_true] at h2
          exact h2.2
        · rw [typeFilterObserved_fst, List.mem_filter] at hm
          exact hm
      · rw [typeFilterObserved_fst, List.mem_filter] at hm
        exact hm

/-- A metric satisfying the type-filter predicate has one of the two
known test kinds. -/
theorem typePass_kind (fs : FilterState) (m : DriftMetric)
    (h : typePass fs m = true) :
    m.driftCalc.type = DRIFT_TEST_ENUM.KS ∨
      m.driftCalc.type = DRIFT_TEST_ENUM.CHI2 := by
  simp only [typePass, isNumericalOf, isCategoricalOf, Bool.or_eq_true,
    Bool.and_eq_true, beq_iff_eq] at h
  rcases h with ⟨_, h⟩ | ⟨_, h⟩
  · exact Or.inl h
  · exact Or.inr h

/-- Claim C1: for every present dataset with metrics sequence M and every
filter state with at least one type toggle true, a metric of M passes the
type filter iff (`isNumericalSelected` is true and its `driftCalc.type`
equals the numerical test kind KS) or (`isCategoricalSelected` is true and
its `driftCalc.type` equals the categorical test kind CHI2). -/
theorem C1_type_filter_characterization (d : DriftData) (fs : FilterState)
    (m : DriftMetric) (hm : m ∈ itemsOf (some d))
    (htog : fs.isNumericalSelected = true ∨ fs.isCategoricalSelected = true) :
    typePass fs m = true ↔
      (fs.isNumericalSelected = true ∧
        m.driftCalc.type = DRIFT_TEST_ENUM.KS) ∨
      (fs.isCategoricalSelected = true ∧
        m.driftCalc.type = DRIFT_TEST_ENUM.CHI2) := by
  simp [typePass, isNumericalOf, isCategoricalOf]

/-- Witness for C1 at a concrete numerical metric of the sample dataset. -/
theorem C1_type_filter_characterization_witness :
    typePass ⟨true, false, none⟩ sampleKS = true ↔
      (FilterState.isNumericalSelected ⟨true, false, none⟩ = true ∧
        sampleKS.driftCalc.type = DRIFT_TEST_ENUM.KS) ∨
      (FilterState.isCategoricalSelected ⟨true, false, none⟩ = true ∧
        sampleKS.driftCalc.type = DRIFT_TEST_ENUM.CHI2) :=
  C1_type_filter_characterization sampleData ⟨true, false, none⟩ sampleKS
    (by decide) (Or.inl rfl)

/-- Claim C2: for every present dataset and every filter state with at
least one type toggle true and a non-empty `selectedFeatures`, a metric is
in the result iff its `featureName` is a member of `selectedFeatures` AND
it passes the type filter; in particular every element of the result has
`featureName` in `selectedFeatures`. -/
theorem C2_name_filter_intersection (d : DriftData) (fs : FilterState)
    (sel : List String) (hsel : fs.selectedFeatures = some sel)
    (hne : sel ≠ [])
    (htog : fs.isNumericalSelected = true ∨ fs.isCategoricalSelected = true) :
    (∀ m : DriftMetric,
      m ∈ useGetFilteredFeatures (some d) fs ↔
        m ∈ itemsOf (some d) ∧ sel.contains m.featureName = true ∧
          typePass fs m = true) ∧
    ∀ m ∈ useGetFilteredFeatures (some d) fs, m.featureName ∈ sel := by
  have hguard := guard_false_of_toggle fs htog
  have hlen : sel.length > 0 := List.length_pos.mpr hne
  have hchar : ∀ m : DriftMetric,
      m ∈ useGetFilteredFeatures (some d) fs ↔
        m ∈ itemsOf (some d) ∧ sel.contains m.featureName = true ∧
          typePass fs m = true := by
    intro m
    simp [useGetFilteredFeatures, hguard, hsel, hlen, List.mem_filter,
      typePass, and_assoc]
  refine ⟨hchar, ?_⟩
  intro m hm
  have h2 := ((hchar m).mp hm).2.1
  simpa using h2

/-- Witness for C2 with `selectedFeatures = ["city"]` on the sample data. -/
theorem C2_name_filter_intersection_witness :
    (∀ m : DriftMetric,
      m ∈ useGetFilteredFeatures (some sampleData) ⟨true, true, some ["city"]⟩ ↔
        m ∈ itemsOf (some sampleData) ∧
          List.contains ["city"] m.featureName = true ∧
          typePass ⟨true, true, some ["city"]⟩ m = true) ∧
    ∀ m ∈ useGetFilteredFeatures (some sampleData) ⟨true, true, some ["city"]⟩,
      m.featureName ∈ ["city"] :=
  C2_name_filter_intersection sampleData ⟨true, true, some ["city"]⟩
    ["city"] rfl (by decide) (Or.inl rfl)

/-- Claim C3: for every present dataset and every filter state with at
least one type toggle true and `selectedFeatures` empty or absent, the
result is exactly the sequence of metrics passing the type filter alone,
with no restriction on `featureName`. -/
theorem C3_no_name_restriction (d : DriftData) (fs : FilterState)
    (hsel : fs.selectedFeatures = none ∨ fs.selectedFeatures = some [])
    (htog : fs.isNumericalSelected = true ∨ fs.isCategoricalSelected = true) :
    useGetFilteredFeatures (some d) fs =
      (itemsOf (some d)).filter (typePass fs) := by
  have hguard := guard_false_of_toggle fs htog
  rcases hsel with h | h <;>
    simp [useGetFilteredFeatures, hguard, h, typeFilterObserved_fst]

/-- Witness for C3 with absent `selectedFeatures` on the sample data. -/
theorem C3_no_name_restriction_witness :
    useGetFilteredFeatures (some sampleData) ⟨true, true, none⟩ =
      (itemsOf (some sampleData)).filter (typePass ⟨true, true, none⟩) :=
  C3_no_name_restriction sampleData ⟨true, true, none⟩ (Or.inl rfl)
    (Or.inl rfl)

/-- Claim C4: for every dataset and every filter state with both type
toggles false, the result is the empty sequence, regardless of the dataset
and of `selectedFeatures` (the type gate precedes the name filter). -/
theorem C4_type_gate_overrides (dataset : Option DriftData)
    (fs : FilterState) (hnum : fs.isNumericalSelected = false)
    (hcat : fs.isCategoricalSelected = false) :
    useGetFilteredFeatures dataset fs = [] := by
  cases dataset <;> simp [useGetFilteredFeatures, hnum, hcat]

/-- Witness for C4: both toggles off, a non-empty allow-list is ignored. -/
theorem C4_type_gate_overrides_witness :
    useGetFilteredFeatures (some sampleData) ⟨false, false, some ["age"]⟩ = [] :=
  C4_type_gate_overrides (some sampleData) ⟨false, false, some ["age"]⟩
    rfl rfl

/-- Claim C5: for every dataset and every filter state, the result is a
sublist of the input `featureMetrics`: same relative order, no duplicates
introduced, no elements inserted. -/
theorem C5_output_sublist (dataset : Option DriftData) (fs : FilterState) :
    List.Sublist (useGetFilteredFeatures dataset fs) (itemsOf dataset) := by
  cases dataset with
  | none => exact List.nil_sublist _
  | some d =>
    simp only [useGetFilteredFeatures, typeFilterObserved_fst]
    split
    · exact List.nil_sublist _
    · split
      · split
        · exact List.filter_sublist _
        · exact List.filter_sublist _
      · exact List.filter_sublist _

/-- Claim C6: for every filter state, an absent dataset yields the empty
sequence, and a present dataset whose `drift.featureMetrics` is absent or
empty likewise yields the empty sequence. -/
theorem C6_degenerate_inputs (fs : FilterState) :
    useGetFilteredFeatures none fs = [] ∧
    ∀ d : DriftData,
      (d.drift = none ∨
        ∃ dr : Drift, d.drift = some dr ∧
          (dr.featureMetrics = none ∨ dr.featureMetrics = some [])) →
      useGetFilteredFeatures (some d) fs = [] := by
  refine ⟨rfl, ?_⟩
  intro d hd
  have hitems : itemsOf (some d) = [] := by
    rcases hd with h | ⟨dr, hdr, h | h⟩ <;> simp [itemsOf, *]
  exact filtered_nil_of_items_nil (some d) fs hitems

/-- Witness for C6 at a dataset with an absent `drift` object. -/
theorem C6_degenerate_inputs_witness :
    useGetFilteredFeatures none ⟨true, true, none⟩ = [] ∧
    useGetFilteredFeatures (some ⟨none⟩) ⟨true, true, none⟩ = [] :=
  ⟨(C6_degenerate_inputs ⟨true, true, none⟩).1,
    (C6_degenerate_inputs ⟨true, true, none⟩).2 ⟨none⟩ (Or.inl rfl)⟩

/-- Claim C7: the diagnostic observation performed in the no-name-filter
branch does not affect the returned sequence: the hook is extensionally
equal to its variant with the diagnostic channel removed, for every input. -/
theorem C7_diagnostics_transparent (dataset : Option DriftData)
    (fs : FilterState) :
    useGetFilteredFeatures dataset fs =
      useGetFilteredFeaturesNoDebug dataset fs := by
  cases dataset with
  | none => rfl
  | some d =>
    simp only [useGetFilteredFeatures, useGetFilteredFeaturesNoDebug,
      typeFilterObserved_fst]

/-- Claim C8: the filter is deterministic: two invocations on deep-equal
inputs yield deep-equal result sequences. -/
theorem C8_deterministic (d1 d2 : Option DriftData) (fs1 fs2 : FilterState)
    (hd : d1 = d2) (hf : fs1 = fs2) :
    useGetFilteredFeatures d1 fs1 = useGetFilteredFeatures d2 fs2 := by
  rw [hd, hf]

/-- Witness for C8 at the sample dataset. -/
theorem C8_deterministic_witness :
    useGetFilteredFeatures (some sampleData) ⟨true, true, none⟩ =
      useGetFilteredFeatures (some sampleData) ⟨true, true, none⟩ :=
  C8_deterministic (some sampleData) (some sampleData)
    ⟨true, true, none⟩ ⟨true, true, none⟩ rfl rfl

/-- Claim C9: the filter is total over its declared input domain: every
input yields a defined result sequence (no error is signaled), and an
empty working sequence degrades to the empty result. -/
theorem C9_total_function (dataset : Option DriftData) (fs : FilterState) :
    ∃ r : List DriftMetric, useGetFilteredFeatures dataset fs = r ∧
      (itemsOf dataset = [] → r = []) :=
  ⟨useGetFilteredFeatures dataset fs, rfl,
    fun h => filtered_nil_of_items_nil dataset fs h⟩

/-- Witness for C9 at the absent dataset. -/
theorem C9_total_function_witness :
    ∃ r : List DriftMetric,
      useGetFilteredFeatures none ⟨true, true, none⟩ = r ∧
        (itemsOf none = [] → r = []) :=
  C9_total_function none ⟨true, true, none⟩

/-- Claim C10: for every dataset and every filter state, any metric whose
`driftCalc.type` is neither KS nor CHI2 never appears in the output,
regardless of the toggles and of `selectedFeatures`: every output metric
has one of the two known test kinds. -/
theorem C10_unknown_kinds_excluded (dataset : Option DriftData)
    (fs : FilterState) (m : DriftMetric)
    (hm : m ∈ useGetFilteredFeatures dataset fs) :
    m.driftCalc.type = DRIFT_TEST_ENUM.KS ∨
      m.driftCalc.type = DRIFT_TEST_ENUM.CHI2 :=
  typePass_kind fs m (mem_filtered dataset fs m hm).2

/-- Witness for C10 at a concrete element of the filtered sample data. -/
theorem C10_unknown_kinds_excluded_witness :
    sampleKS.driftCalc.type = DRIFT_TEST_ENUM.KS ∨
      sampleKS.driftCalc.type = DRIFT_TEST_ENUM.CHI2 :=
  C10_unknown_kinds_excluded (some sampleData) ⟨true, true, none⟩ sampleKS
    (by decide)
